import Mathlib

/-!
Verification development for the voice question-answering pipeline.

The embedding models `answer_agent.py` (QA database lookup with fuzzy
matching, web-search fallback, answer orchestration) and the transcription
polling loop shared by `audio_processing.py` and `speech_recognition.py`.

External collaborators (the fuzzywuzzy scorer, the Tavily search provider,
the AssemblyAI transcription endpoint, the filesystem) are modelled as
explicit parameters: a scoring function, a provider-behaviour value, a
stream of poll responses, and an `Except`-valued load attempt.  Each
definition follows the Python source line by line; the doc comment names
the source location.
-/

namespace VoiceQA

/-- One entry of the QA database: `{"question": ..., "answer": ...}`
(`qa_database.json`, read by `answer_agent.py`). -/
structure QAEntry where
  question : String
  answer : String
deriving Repr, DecidableEq

/-- The loaded QA database dictionary; its `"questions"` key holds the list
of entries (`answer_agent.py`, `self.qa_database["questions"]`). -/
structure QADatabase where
  questions : List QAEntry
deriving Repr, DecidableEq

/-- `AnswerAgent._load_qa_database` (answer_agent.py lines 33-49): the
attempt to open and JSON-parse the file either produces a database value or
raises (file missing, unreadable, or invalid JSON); any exception is caught
and the empty database `{"questions": []}` is returned. -/
def _load_qa_database (attempt : Except String QADatabase) : QADatabase :=
  match attempt with
  | Except.ok db => db
  | Except.error _ => ⟨[]⟩

/-- fuzzywuzzy `process.extractOne(query, choices)` (answer_agent.py line
69): score every choice, return the choice with the highest score together
with that score; on ties the first choice (in list order) attaining the
maximum wins, matching Python `max`, which returns the first maximal
element.  Returns `none` exactly when `choices` is empty.  The similarity
scorer (WRatio in fuzzywuzzy) is external and passed in as `score`. -/
def extractOne (score : String → String → Nat) (query : String) :
    List String → Option (String × Nat)
  | [] => none
  | c :: cs =>
    match extractOne score query cs with
    | none => some (c, score query c)
    | some (b, t) =>
      if t > score query c then some (b, t) else some (c, score query c)

/-- `AnswerAgent.find_best_match_in_database` (answer_agent.py lines
51-79): guard on empty query or empty database, extract the question
strings, run `process.extractOne`, and if the best score reaches the
threshold return the answer of the first database entry whose question
equals the best-match string; otherwise return `None`.  The Python default
`threshold=80` is passed explicitly by callers here. -/
def find_best_match_in_database (score : String → String → Nat)
    (qa_database : QADatabase) (query : String) (threshold : Nat) :
    Option String :=
  if query.isEmpty || qa_database.questions.isEmpty then none
  else
    let questions := qa_database.questions.map (fun q => q.question)
    match extractOne score query questions with
    | none => none
    | some (best_match, s) =>
      if s ≥ threshold then
        match qa_database.questions.find?
            (fun item => item.question == best_match) with
        | some item => some item.answer
        | none => none
      else none

/-- One result dictionary from the Tavily provider: `title` and `content`
keys may each be absent (`result.get('title', 'No title')`,
`result.get('content', 'No content')`, answer_agent.py lines 105-106). -/
structure SearchResult where
  title : Option String
  content : Option String
deriving Repr, DecidableEq

/-- Behaviour of the external Tavily call `self.tavily_client.search(...)`
(answer_agent.py line 97): it raises an exception, or returns a response
that is falsy / lacks a `"results"` key, or returns a response whose
`"results"` key holds a list. -/
inductive ProviderBehavior where
  | raises (e : String)
  | respNoResults
  | respResults (rs : List SearchResult)
deriving Repr, DecidableEq

/-- Python truthiness of an environment-variable value: `os.getenv` yields
`None` when unset, and `not key` is true for `None` and for `""`
(answer_agent.py lines 27-31 and 91). -/
def pyTruthyStr : Option String → Bool
  | none => false
  | some s => !s.isEmpty

/-- Python slice `s[:n]`: the first `n` characters (code points) of `s`
(answer_agent.py line 106). -/
def strTake (s : String) (n : Nat) : String := ⟨s.data.take n⟩

/-- Formatting of the i-th search result (answer_agent.py lines 105-106):
`f"{i}. {title}\n"` then `f"   {content[:300]}...\n\n"` with the
`.get` defaults. -/
def formatResult (i : Nat) (r : SearchResult) : String :=
  toString i ++ ". " ++ r.title.getD "No title" ++ "\n"
    ++ "   " ++ strTake (r.content.getD "No content") 300 ++ "...\n\n"

/-- The loop `for i, result in enumerate(search_result["results"][:3], 1)`
body accumulated into `formatted_response` (answer_agent.py lines
104-106), numbering from `i`. -/
def formatResults : Nat → List SearchResult → String
  | _, [] => ""
  | i, r :: rs => formatResult i r ++ formatResults (i + 1) rs

/-- `AnswerAgent.search_web` (answer_agent.py lines 81-114).  When the key
is falsy the fixed unavailability message is returned before any provider
contact; otherwise the provider call is made inside `try`: an exception is
caught and turned into an error string, a response with a `"results"` list
is formatted (first three results only), and any other response yields the
not-found message. -/
def search_web (tavily_api_key : Option String)
    (provider : ProviderBehavior) (query : String) : String :=
  if !(pyTruthyStr tavily_api_key) then
    "Web search is not available because the Tavily API key is missing."
  else
    match provider with
    | ProviderBehavior.raises e =>
        "Sorry, there was an error while searching the web: " ++ e
    | ProviderBehavior.respNoResults =>
        "I couldn\x27t find relevant information on the web for your question."
    | ProviderBehavior.respResults rs =>
        "Here\x27s what I found on the web:\n\n" ++ formatResults 1 (rs.take 3)

/-- The per-query result dictionary `{"source": ..., "answer": ...}` built
by `AnswerAgent.get_answer` (answer_agent.py lines 131-142). -/
structure AnswerResult where
  source : String
  answer : String
deriving Repr, DecidableEq

/-- `AnswerAgent.get_answer` (answer_agent.py lines 116-142): call
`find_best_match_in_database(query)` (default threshold 80); Python
`if database_answer:` is truthy only for a non-`None`, non-empty string, in
which case the result is tagged `"database"`; otherwise `search_web` is
invoked and the result is tagged `"web"`. -/
def get_answer (score : String → String → Nat) (qa_database : QADatabase)
    (tavily_api_key : Option String) (provider : ProviderBehavior)
    (query : String) : AnswerResult :=
  match find_best_match_in_database score qa_database query 80 with
  | some database_answer =>
    if database_answer.isEmpty then
      ⟨"web", search_web tavily_api_key provider query⟩
    else
      ⟨"database", database_answer⟩
  | none => ⟨"web", search_web tavily_api_key provider query⟩

/-- One JSON response of the transcription polling endpoint
(`transcription_result`, audio_processing.py line 97 / speech_recognition.py
line 97): a `status` string, the transcript `text` (present on completion),
an optional `error` message and an optional `percent` progress value. -/
structure PollResponse where
  status : String
  text : String
  error : Option String
  percent : Option Nat
deriving Repr, DecidableEq

/-- The branch taken by the polling loop body on one response
(audio_processing.py lines 99-110 / speech_recognition.py lines 101-114):
`some (some text)` when `status == "completed"` (the loop returns the
text), `some none` when `status == "error"` (the loop returns `None`), and
`none` when the loop keeps polling. -/
def pollOutcome (r : PollResponse) : Option (Option String) :=
  if r.status = "completed" then some (some r.text)
  else if r.status = "error" then some none
  else none

/-- The `while True:` polling loop of `transcribe_audio`
(audio_processing.py lines 96-125 / speech_recognition.py lines 96-121),
reading response `responses i` on its first iteration, `responses (i+1)` on
the next, and so on.  The Python loop is unbounded; the embedding adds a
`fuel` bound and returns `none` when `fuel` iterations all kept polling, so
that "the loop is still running after `fuel` polls" is expressible. -/
def transcribe_poll (responses : Nat → PollResponse) :
    Nat → Nat → Option (Option String)
  | _, 0 => none
  | i, fuel + 1 =>
    match pollOutcome (responses i) with
    | some res => some res
    | none => transcribe_poll responses (i + 1) fuel

/-- A terminal poll status, after which the loop stops (spec glossary:
completed or error). -/
def isTerminal (r : PollResponse) : Prop :=
  r.status = "completed" ∨ r.status = "error"

instance (r : PollResponse) : Decidable (isTerminal r) := by
  unfold isTerminal; infer_instance

/-- A concrete poll-response stream: two in-progress responses, then a
completed one (used to exercise the polling loop). -/
def demoResponses : Nat → PollResponse := fun k =>
  if k < 2 then ⟨"processing", "", none, some 40⟩
  else ⟨"completed", "hello world", none, some 100⟩

/-- A concrete poll-response stream that never reaches a terminal
status (used to exercise the unbounded retry behaviour). -/
def demoForever : Nat → PollResponse := fun _ => ⟨"queued", "", none, none⟩

section ExtractOneLemmas

variable (score : String → String → Nat) (query : String)

theorem extractOne_eq_none_iff (cs : List String) :
    extractOne score query cs = none ↔ cs = [] := by
  cases cs with
  | nil => simp [extractOne]
  | cons c cs =>
    simp only [extractOne]
    cases h : extractOne score query cs with
    | none => simp
    | some bt =>
      obtain ⟨b, t⟩ := bt
      by_cases hlt : t > score query c <;> simp [hlt]

theorem extractOne_mem {cs : List String} {b : String} {s : Nat}
    (h : extractOne score query cs = some (b, s)) :
    b ∈ cs ∧ score query b = s := by
  induction cs generalizing b s with
  | nil => simp [extractOne] at h
  | cons c cs ih =>
    simp only [extractOne] at h
    cases hrec : extractOne score query cs with
    | none =>
      rw [hrec] at h
      simp only [Option.some.injEq, Prod.mk.injEq] at h
      obtain ⟨rfl, rfl⟩ := h
      exact ⟨List.mem_cons_self c cs, rfl⟩
    | some bt =>
      obtain ⟨b', t⟩ := bt
      rw [hrec] at h
      by_cases hlt : t > score query c
      · simp only [hlt, if_pos, Option.some.injEq, Prod.mk.injEq] at h
        obtain ⟨rfl, rfl⟩ := h
        obtain ⟨hmem, hsc⟩ := ih hrec
        exact ⟨List.mem_cons_of_mem c hmem, hsc⟩
      · simp only [hlt, if_neg, Option.some.injEq, Prod.mk.injEq,
          not_false_iff] at h
        obtain ⟨rfl, rfl⟩ := h
        exact ⟨List.mem_cons_self c cs, rfl⟩

theorem extractOne_le {cs : List String} {b : String} {s : Nat}
    (h : extractOne score query cs = some (b, s)) :
    ∀ c ∈ cs, score query c ≤ s := by
  induction cs generalizing b s with
  | nil => simp [extractOne] at h
  | cons c cs ih =>
    simp only [extractOne] at h
    cases hrec : extractOne score query cs with
    | none =>
      rw [hrec] at h
      simp only [Option.some.injEq, Prod.mk.injEq] at h
      obtain ⟨rfl, rfl⟩ := h
      intro d hd
      rcases List.mem_cons.mp hd with rfl | hd
      · exact le_refl _
      · rw [extractOne_eq_none_iff] at hrec
        subst hrec
        simp at hd
    | some bt =>
      obtain ⟨b', t⟩ := bt
      rw [hrec] at h
      by_cases hlt : t > score query c
      · simp only [hlt, if_pos, Option.some.injEq, Prod.mk.injEq] at h
        obtain ⟨rfl, rfl⟩ := h
        intro d hd
        rcases List.mem_cons.mp hd with rfl | hd
        · exact le_of_lt hlt
        · exact ih hrec d hd
      · simp only [hlt, if_neg, Option.some.injEq, Prod.mk.injEq,
          not_false_iff] at h
        obtain ⟨rfl, rfl⟩ := h
        intro d hd
        rcases List.mem_cons.mp hd with rfl | hd
        · exact le_refl _
        · exact le_trans (ih hrec d hd) (Nat.le_of_not_lt hlt)

theorem extractOne_first {cs : List String} {b : String} {s : Nat}
    (h : extractOne score query cs = some (b, s)) :
    cs.find? (fun c => score query c == s) = some b := by
  induction cs generalizing b s with
  | nil => simp [extractOne] at h
  | cons c cs ih =>
    simp only [extractOne] at h
    cases hrec : extractOne score query cs with
    | none =>
      rw [hrec] at h
      simp only [Option.some.injEq, Prod.mk.injEq] at h
      obtain ⟨rfl, rfl⟩ := h
      simp [List.find?]
    | some bt =>
      obtain ⟨b', t⟩ := bt
      rw [hrec] at h
      by_cases hlt : t > score query c
      · simp only [hlt, if_pos, Option.some.injEq, Prod.mk.injEq] at h
        obtain ⟨rfl, rfl⟩ := h
        rw [List.find?_cons_of_neg _ (by
          simp only [beq_iff_eq]
          exact Nat.ne_of_lt hlt)]
        exact ih hrec
      · simp only [hlt, if_neg, Option.some.injEq, Prod.mk.injEq,
          not_false_iff] at h
        obtain ⟨rfl, rfl⟩ := h
        simp [List.find?]

end ExtractOneLemmas

section MatcherLemmas

variable (score : String → String → Nat)

/-- Unfolding of `find_best_match_in_database` once the two emptiness
guards are known false. -/
theorem find_best_match_eq (db : QADatabase) (query : String)
    (threshold : Nat) (hqe : query.isEmpty = false)
    (hde : db.questions.isEmpty = false) :
    find_best_match_in_database score db query threshold =
      match extractOne score query
          (db.questions.map (fun q => q.question)) with
      | none => none
      | some (b, s) =>
        if s ≥ threshold then
          match db.questions.find?
              (fun item => item.question == b) with
          | some item => some item.answer
          | none => none
        else none := by
  unfold find_best_match_in_database
  rw [hqe, hde]
  rfl

/-- Characterisation of the matcher on a non-empty query and database,
given the best match and score that `extractOne` produced: at or above the
threshold the answer of the first entry whose question equals the
best-match string is returned, below it `none` is returned. -/
theorem find_best_match_spec {db : QADatabase} {query b : String}
    {s : Nat} (threshold : Nat) (hq : query ≠ "") (hdb : db.questions ≠ [])
    (hext : extractOne score query
      (db.questions.map (fun q => q.question)) = some (b, s)) :
    (threshold ≤ s →
      ∃ e, db.questions.find? (fun item => item.question == b) = some e ∧
        e.question = b ∧
        find_best_match_in_database score db query threshold
          = some e.answer) ∧
    (s < threshold →
      find_best_match_in_database score db query threshold = none) := by
  have hqe : query.isEmpty = false := by
    rw [Bool.eq_false_iff]
    intro hc
    exact hq ((String.isEmpty_iff query).mp hc)
  have hde : db.questions.isEmpty = false := by
    simp [List.isEmpty_iff, hdb]
  obtain ⟨hbmem, hbs⟩ := extractOne_mem score query hext
  obtain ⟨e0, he0mem, he0q⟩ := List.mem_map.mp hbmem
  have hfind : (db.questions.find?
      (fun item => item.question == b)).isSome := by
    rw [List.find?_isSome]
    exact ⟨e0, he0mem, by simp [he0q]⟩
  obtain ⟨e, he⟩ := Option.isSome_iff_exists.mp hfind
  have heq : e.question = b := by
    have hpe := List.find?_some he
    simpa using hpe
  rw [find_best_match_eq score db query threshold hqe hde, hext]
  constructor
  · intro hth
    refine ⟨e, he, heq, ?_⟩
    dsimp only
    rw [if_pos hth, he]
  · intro hlt
    dsimp only
    rw [if_neg (Nat.not_le_of_lt hlt)]

end MatcherLemmas

/-- C5: for every scorer and threshold, an empty query or an empty
database yields `none`; the universal quantification over the scoring
function expresses that no similarity score is consulted. -/
theorem C5_empty_query_or_db (score : String → String → Nat)
    (db : QADatabase) (query : String) (threshold : Nat)
    (h : query = "" ∨ db.questions = []) :
    find_best_match_in_database score db query threshold = none := by
  unfold find_best_match_in_database
  rcases h with rfl | hdb
  · rfl
  · rw [hdb]
    cases hqe : query.isEmpty <;> rfl

/-- Witness for C5: both guard directions at concrete inputs. -/
theorem C5_empty_query_or_db_witness :
    find_best_match_in_database (fun _ _ => 100)
      ⟨[⟨"What is a voice assistant?", "A voice assistant is..."⟩]⟩
      "" 80 = none ∧
    find_best_match_in_database (fun _ _ => 100) ⟨[]⟩
      "What is a voice assistant?" 80 = none :=
  ⟨C5_empty_query_or_db (fun _ _ => 100)
      ⟨[⟨"What is a voice assistant?", "A voice assistant is..."⟩]⟩
      "" 80 (Or.inl rfl),
    C5_empty_query_or_db (fun _ _ => 100) ⟨[]⟩
      "What is a voice assistant?" 80 (Or.inr rfl)⟩

/-- C2: on a non-empty query and database with the default threshold 80,
if the best score reaches 80 the stored answer of the best-matching entry
is returned, and below 80 `none` is returned; the 80/79 boundary is
exercised in the witness. -/
theorem C2_threshold_eighty (score : String → String → Nat)
    (db : QADatabase) (query b : String) (s : Nat)
    (hq : query ≠ "") (hdb : db.questions ≠ [])
    (hext : extractOne score query
      (db.questions.map (fun q => q.question)) = some (b, s)) :
    (80 ≤ s →
      ∃ e, db.questions.find? (fun item => item.question == b) = some e ∧
        find_best_match_in_database score db query 80 = some e.answer) ∧
    (s < 80 → find_best_match_in_database score db query 80 = none) := by
  obtain ⟨h1, h2⟩ := find_best_match_spec score 80 hq hdb hext
  refine ⟨?_, h2⟩
  intro hth
  obtain ⟨e, he, _, hres⟩ := h1 hth
  exact ⟨e, he, hres⟩

/-- Witness for C2: a scorer that yields exactly 80 produces a match and
one that yields exactly 79 does not, on the same one-entry database. -/
theorem C2_threshold_eighty_witness :
    (∃ e, List.find?
        (fun item => item.question == "What is a voice assistant?")
        [(⟨"What is a voice assistant?", "A voice assistant is..."⟩ :
          QAEntry)] = some e ∧
      find_best_match_in_database (fun _ _ => 80)
        ⟨[⟨"What is a voice assistant?", "A voice assistant is..."⟩]⟩
        "tell me about voice assistants" 80 = some e.answer) ∧
    find_best_match_in_database (fun _ _ => 79)
      ⟨[⟨"What is a voice assistant?", "A voice assistant is..."⟩]⟩
      "tell me about voice assistants" 80 = none :=
  ⟨(C2_threshold_eighty (fun _ _ => 80)
      ⟨[⟨"What is a voice assistant?", "A voice assistant is..."⟩]⟩
      "tell me about voice assistants" "What is a voice assistant?" 80
      (by decide) (by decide) (by decide)).1 (by decide),
    (C2_threshold_eighty (fun _ _ => 79)
      ⟨[⟨"What is a voice assistant?", "A voice assistant is..."⟩]⟩
      "tell me about voice assistants" "What is a voice assistant?" 79
      (by decide) (by decide) (by decide)).2 (by decide)⟩

/-- C8: when the best score is shared, the returned best match is the
first question (in database iteration order) attaining the maximal score,
and the answer returned is that of the earliest database entry whose
question text equals the best-match string. -/
theorem C8_tie_break_first_max (score : String → String → Nat)
    (db : QADatabase) (query b : String) (s : Nat)
    (hq : query ≠ "") (hdb : db.questions ≠ [])
    (hext : extractOne score query
      (db.questions.map (fun q => q.question)) = some (b, s))
    (hs : 80 ≤ s) :
    (∀ c ∈ db.questions.map (fun q => q.question), score query c ≤ s) ∧
    (db.questions.map (fun q => q.question)).find?
      (fun c => score query c == s) = some b ∧
    ∃ e, db.questions.find? (fun item => item.question == b) = some e ∧
      e.question = b ∧
      find_best_match_in_database score db query 80 = some e.answer := by
  refine ⟨extractOne_le score query hext,
    extractOne_first score query hext, ?_⟩
  exact (find_best_match_spec score 80 hq hdb hext).1 hs

section GetAnswerLemmas

variable (score : String → String → Nat) (db : QADatabase)
variable (key : Option String) (provider : ProviderBehavior)

/-- When the matcher yields a non-empty answer, `get_answer` tags it
`"database"` (answer_agent.py lines 128-134). -/
theorem get_answer_eq_database (query a : String)
    (hfind : find_best_match_in_database score db query 80 = some a)
    (ha : a ≠ "") :
    get_answer score db key provider query = ⟨"database", a⟩ := by
  unfold get_answer
  rw [hfind]
  dsimp only
  rw [if_neg (by
    intro hc
    exact ha ((String.isEmpty_iff a).mp hc))]

/-- When the matcher yields `None` or the empty string (both falsy in
Python), `get_answer` falls through to web search (answer_agent.py lines
130, 136-142). -/
theorem get_answer_eq_web (query : String)
    (hfind : find_best_match_in_database score db query 80 = none ∨
      find_best_match_in_database score db query 80 = some "") :
    get_answer score db key provider query
      = ⟨"web", search_web key provider query⟩ := by
  unfold get_answer
  rcases hfind with h | h <;> rw [h] <;> rfl

end GetAnswerLemmas

/-- Witness for C8: two entries tie at score 90; the first one's answer is
returned. -/
theorem C8_tie_break_first_max_witness :
    (∀ c ∈ ([⟨"first question", "first answer"⟩,
        ⟨"second question", "second answer"⟩] :
        List QAEntry).map (fun q => q.question),
      (fun (_ _ : String) => 90) "anything" c ≤ 90) ∧
    (([⟨"first question", "first answer"⟩,
        ⟨"second question", "second answer"⟩] :
        List QAEntry).map (fun q => q.question)).find?
      (fun c => (fun (_ _ : String) => 90) "anything" c == 90)
      = some "first question" ∧
    ∃ e, List.find? (fun item => item.question == "first question")
        [(⟨"first question", "first answer"⟩ : QAEntry),
          ⟨"second question", "second answer"⟩] = some e ∧
      e.question = "first question" ∧
      find_best_match_in_database (fun _ _ => 90)
        ⟨[⟨"first question", "first answer"⟩,
          ⟨"second question", "second answer"⟩]⟩
        "anything" 80 = some e.answer :=
  C8_tie_break_first_max (fun _ _ => 90)
    ⟨[⟨"first question", "first answer"⟩,
      ⟨"second question", "second answer"⟩]⟩
    "anything" "first question" 90
    (by decide) (by decide) (by decide) (by decide)

/-- C1 counterexample: for a database entry whose stored answer is the
empty string, `find_best_match_in_database` yields an answer (the empty
string, at score 95 ≥ 80), yet `get_answer` tags the result `"web"`, not
`"database"` — contradicting "if that yields an answer the result is
tagged source database with that answer". -/
theorem C1_counterexample :
    find_best_match_in_database (fun _ _ => 95)
      ⟨[⟨"stored question", ""⟩]⟩ "some other question" 80 = some "" ∧
    (get_answer (fun _ _ => 95) ⟨[⟨"stored question", ""⟩]⟩
      (some "tvly-key") ProviderBehavior.respNoResults
      "some other question").source = "web" := by
  decide

/-- C1 (amended): every query is answered with exactly one of the two
sources; a non-empty matcher answer is tagged `"database"` with that
answer, and a missing match — or a matched answer that is the empty
string — is tagged `"web"` with the value of `search_web(query)`. -/
theorem C1_get_answer_source (score : String → String → Nat)
    (db : QADatabase) (key : Option String) (provider : ProviderBehavior)
    (query : String) :
    (((get_answer score db key provider query).source = "database" ∧
        (get_answer score db key provider query).source ≠ "web") ∨
      ((get_answer score db key provider query).source = "web" ∧
        (get_answer score db key provider query).source ≠ "database")) ∧
    (∀ a, find_best_match_in_database score db query 80 = some a →
      a ≠ "" → get_answer score db key provider query = ⟨"database", a⟩) ∧
    ((find_best_match_in_database score db query 80 = none ∨
      find_best_match_in_database score db query 80 = some "") →
      get_answer score db key provider query
        = ⟨"web", search_web key provider query⟩) := by
  refine ⟨?_,
    fun a hf ha => get_answer_eq_database score db key provider query a hf ha,
    fun hf => get_answer_eq_web score db key provider query hf⟩
  unfold get_answer
  cases hf : find_best_match_in_database score db query 80 with
  | none =>
    right
    exact ⟨rfl, (by decide : ("web" : String) ≠ "database")⟩
  | some a =>
    dsimp only
    by_cases ha : a.isEmpty = true
    · rw [if_pos ha]
      right
      exact ⟨rfl, (by decide : ("web" : String) ≠ "database")⟩
    · rw [if_neg ha]
      left
      exact ⟨rfl, (by decide : ("database" : String) ≠ "web")⟩

/-- Witness for C1: both branches at concrete inputs. -/
theorem C1_get_answer_source_witness :
    get_answer (fun _ _ => 100) ⟨[⟨"stored question", "stored answer"⟩]⟩
      (some "tvly-key") ProviderBehavior.respNoResults "hello"
      = ⟨"database", "stored answer"⟩ ∧
    get_answer (fun _ _ => 10) ⟨[⟨"stored question", "stored answer"⟩]⟩
      (some "tvly-key") ProviderBehavior.respNoResults "hello"
      = ⟨"web", search_web (some "tvly-key")
          ProviderBehavior.respNoResults "hello"⟩ :=
  ⟨(C1_get_answer_source (fun _ _ => 100)
      ⟨[⟨"stored question", "stored answer"⟩]⟩ (some "tvly-key")
      ProviderBehavior.respNoResults "hello").2.1 "stored answer"
      (by decide) (by decide),
    (C1_get_answer_source (fun _ _ => 10)
      ⟨[⟨"stored question", "stored answer"⟩]⟩ (some "tvly-key")
      ProviderBehavior.respNoResults "hello").2.2 (Or.inl (by decide))⟩

/-- C6 counterexample: the query exactly equals the stored question, the
score is 100 and the matcher returns the stored answer, yet `get_answer`
tags the result `"web"` because that stored answer is the empty string —
contradicting "so get_answer tags it source database". -/
theorem C6_counterexample :
    find_best_match_in_database (fun a b => if a == b then 100 else 0)
      ⟨[⟨"What is a voice assistant?", ""⟩]⟩
      "What is a voice assistant?" 80 = some "" ∧
    (get_answer (fun a b => if a == b then 100 else 0)
      ⟨[⟨"What is a voice assistant?", ""⟩]⟩
      (some "tvly-key") ProviderBehavior.respNoResults
      "What is a voice assistant?").source = "web" := by
  decide

/-- C6 (amended): when the non-empty query equals a stored question and
the scorer behaves like the fuzzy ratio on it (self-similarity 100, all
scores at most 100, only the query itself scoring 100), the matcher's best
match is the query with score 100 and the matcher returns the answer of
the (first) entry storing that question; when that answer is non-empty,
`get_answer` tags it source `"database"`. -/
theorem C6_exact_match (score : String → String → Nat) (db : QADatabase)
    (query : String) (hq : query ≠ "")
    (hmem : query ∈ db.questions.map (fun q => q.question))
    (hself : score query query = 100)
    (hle : ∀ c ∈ db.questions.map (fun q => q.question),
      score query c ≤ 100)
    (huniq : ∀ c ∈ db.questions.map (fun q => q.question),
      score query c = 100 → c = query) :
    extractOne score query (db.questions.map (fun q => q.question))
      = some (query, 100) ∧
    ∃ e, db.questions.find? (fun item => item.question == query)
        = some e ∧ e.question = query ∧
      find_best_match_in_database score db query 80 = some e.answer ∧
      (e.answer ≠ "" → ∀ key provider,
        get_answer score db key provider query
          = ⟨"database", e.answer⟩) := by
  obtain ⟨e0, he0mem, he0q⟩ := List.mem_map.mp hmem
  have hdb : db.questions ≠ [] := List.ne_nil_of_mem he0mem
  cases hext : extractOne score query
      (db.questions.map (fun q => q.question)) with
  | none =>
    rw [extractOne_eq_none_iff] at hext
    rw [hext] at hmem
    simp at hmem
  | some bs =>
    obtain ⟨b, s⟩ := bs
    obtain ⟨hbmem, hbs⟩ := extractOne_mem score query hext
    have hs_ge : 100 ≤ s := by
      have := extractOne_le score query hext query hmem
      omega
    have hs_le : s ≤ 100 := by
      have := hle b hbmem
      omega
    have hs100 : s = 100 := le_antisymm hs_le hs_ge
    have hbq : query = b := (huniq b hbmem (by omega)).symm
    subst hbq
    subst hs100
    refine ⟨rfl, ?_⟩
    obtain ⟨hmatch, _⟩ := find_best_match_spec score 80 hq hdb hext
    obtain ⟨e, he, heq, hres⟩ := hmatch (by omega)
    refine ⟨e, he, heq, hres, fun hne key provider => ?_⟩
    exact get_answer_eq_database score db key provider query e.answer
      hres hne

/-- Witness for C6: the spec's own example database and query, with an
exact-equality scorer. -/
theorem C6_exact_match_witness :
    extractOne (fun a b => if a == b then 100 else 0)
      "What is a voice assistant?"
      ((⟨[⟨"What is a voice assistant?", "A voice assistant is..."⟩]⟩ :
        QADatabase).questions.map (fun q => q.question))
      = some ("What is a voice assistant?", 100) ∧
    ∃ e, (⟨[⟨"What is a voice assistant?", "A voice assistant is..."⟩]⟩ :
        QADatabase).questions.find?
        (fun item => item.question == "What is a voice assistant?")
        = some e ∧ e.question = "What is a voice assistant?" ∧
      find_best_match_in_database (fun a b => if a == b then 100 else 0)
        ⟨[⟨"What is a voice assistant?", "A voice assistant is..."⟩]⟩
        "What is a voice assistant?" 80 = some e.answer ∧
      (e.answer ≠ "" → ∀ key provider,
        get_answer (fun a b => if a == b then 100 else 0)
          ⟨[⟨"What is a voice assistant?", "A voice assistant is..."⟩]⟩
          key provider "What is a voice assistant?"
          = ⟨"database", e.answer⟩) :=
  C6_exact_match (fun a b => if a == b then 100 else 0)
    ⟨[⟨"What is a voice assistant?", "A voice assistant is..."⟩]⟩
    "What is a voice assistant?" (by decide) (by decide) (by decide)
    (by decide) (by decide)

/-- C10: a result tagged `"database"` always carries a non-empty answer,
and a matched-but-empty stored answer (which passes the threshold check
inside the matcher) is treated as no match by the orchestrator's
truthiness test, falling through to web search. -/
theorem C10_database_answer_nonempty (score : String → String → Nat)
    (db : QADatabase) (key : Option String) (provider : ProviderBehavior)
    (query : String) :
    ((get_answer score db key provider query).source = "database" →
      (get_answer score db key provider query).answer ≠ "") ∧
    (find_best_match_in_database score db query 80 = some "" →
      get_answer score db key provider query
        = ⟨"web", search_web key provider query⟩) := by
  refine ⟨?_, fun hf =>
    get_answer_eq_web score db key provider query (Or.inr hf)⟩
  unfold get_answer
  cases hf : find_best_match_in_database score db query 80 with
  | none =>
    intro h
    exact absurd h (by decide : ("web" : String) ≠ "database")
  | some a =>
    dsimp only
    by_cases ha : a.isEmpty = true
    · rw [if_pos ha]
      intro h
      exact absurd h (by decide : ("web" : String) ≠ "database")
    · rw [if_neg ha]
      intro _ hc
      exact ha ((String.isEmpty_iff a).mpr hc)

/-- Witness for C10: a matched non-empty answer is tagged `"database"` and
is non-empty; a matched empty answer falls through to the web path even
though its score 100 meets the threshold. -/
theorem C10_database_answer_nonempty_witness :
    (get_answer (fun _ _ => 100) ⟨[⟨"stored question", "stored answer"⟩]⟩
      none ProviderBehavior.respNoResults "anything").answer ≠ "" ∧
    get_answer (fun _ _ => 100) ⟨[⟨"stored question", ""⟩]⟩
      none ProviderBehavior.respNoResults "anything"
      = ⟨"web", search_web none ProviderBehavior.respNoResults
          "anything"⟩ :=
  ⟨(C10_database_answer_nonempty (fun _ _ => 100)
      ⟨[⟨"stored question", "stored answer"⟩]⟩ none
      ProviderBehavior.respNoResults "anything").1 (by decide),
    (C10_database_answer_nonempty (fun _ _ => 100)
      ⟨[⟨"stored question", ""⟩]⟩ none
      ProviderBehavior.respNoResults "anything").2 (by decide)⟩

/-- C3: with a falsy (missing or empty) API key, `search_web` returns the
fixed unavailability message and its value does not depend on the provider
(no provider contact); with a truthy key, a provider exception is caught
and rendered as a plain error string.  `search_web` is a total function
into `String`, so no call propagates an exception. -/
theorem C3_search_web_degrades (key : Option String)
    (provider : ProviderBehavior) (e query : String) :
    (pyTruthyStr key = false →
      search_web key provider query =
        "Web search is not available because the Tavily API key is missing."
      ∧ ∀ provider2, search_web key provider query
          = search_web key provider2 query) ∧
    (pyTruthyStr key = true →
      search_web key (ProviderBehavior.raises e) query =
        "Sorry, there was an error while searching the web: " ++ e) := by
  constructor
  · intro hk
    constructor
    · unfold search_web
      rw [hk]
      rfl
    · intro provider2
      unfold search_web
      rw [hk]
      rfl
  · intro hk
    unfold search_web
    rw [hk]
    rfl

/-- Witness for C3: the missing-key message with an unset key, and the
caught-exception message with a set key. -/
theorem C3_search_web_degrades_witness :
    search_web none ProviderBehavior.respNoResults "what is the weather" =
      "Web search is not available because the Tavily API key is missing."
    ∧
    search_web (some "tvly-key") (ProviderBehavior.raises "timeout")
      "what is the weather" =
      "Sorry, there was an error while searching the web: " ++ "timeout" :=
  ⟨((C3_search_web_degrades none ProviderBehavior.respNoResults "timeout"
      "what is the weather").1 (by decide)).1,
    (C3_search_web_degrades (some "tvly-key")
      ProviderBehavior.respNoResults "timeout"
      "what is the weather").2 (by decide)⟩

/-- C4: on a successful provider response carrying a results list, the
formatted output depends only on the first three results (the rest are
dropped), equals the header followed by the numbered blocks of those
results, and every content excerpt is truncated to at most 300
characters (the `"..."` ellipsis is appended by `formatResult`). -/
theorem C4_first_three_truncated (key : Option String)
    (rs : List SearchResult) (query : String)
    (hk : pyTruthyStr key = true) :
    search_web key (ProviderBehavior.respResults rs) query =
      "Here\x27s what I found on the web:\n\n"
        ++ formatResults 1 (rs.take 3) ∧
    search_web key (ProviderBehavior.respResults rs) query =
      search_web key (ProviderBehavior.respResults (rs.take 3)) query ∧
    ∀ r ∈ rs, (strTake (r.content.getD "No content") 300).length ≤ 300 := by
  refine ⟨?_, ?_, ?_⟩
  · unfold search_web
    rw [hk]
    rfl
  · unfold search_web
    rw [hk]
    dsimp only
    rw [List.take_take]
    rfl
  · intro r _
    show ((r.content.getD "No content").data.take 300).length ≤ 300
    rw [List.length_take]
    exact min_le_left _ _

/-- Witness for C4: five provider results; only the first three are
formatted. -/
theorem C4_first_three_truncated_witness :
    search_web (some "tvly-key") (ProviderBehavior.respResults
        [⟨some "t1", some "c1"⟩, ⟨some "t2", some "c2"⟩,
          ⟨some "t3", some "c3"⟩, ⟨some "t4", some "c4"⟩,
          ⟨some "t5", some "c5"⟩]) "query" =
      "Here\x27s what I found on the web:\n\n"
        ++ formatResults 1
          ([⟨some "t1", some "c1"⟩, ⟨some "t2", some "c2"⟩,
            ⟨some "t3", some "c3"⟩, ⟨some "t4", some "c4"⟩,
            ⟨some "t5", some "c5"⟩].take 3) ∧
    search_web (some "tvly-key") (ProviderBehavior.respResults
        [⟨some "t1", some "c1"⟩, ⟨some "t2", some "c2"⟩,
          ⟨some "t3", some "c3"⟩, ⟨some "t4", some "c4"⟩,
          ⟨some "t5", some "c5"⟩]) "query" =
      search_web (some "tvly-key") (ProviderBehavior.respResults
        ([⟨some "t1", some "c1"⟩, ⟨some "t2", some "c2"⟩,
          ⟨some "t3", some "c3"⟩, ⟨some "t4", some "c4"⟩,
          ⟨some "t5", some "c5"⟩].take 3)) "query" ∧
    ∀ r ∈ ([⟨some "t1", some "c1"⟩, ⟨some "t2", some "c2"⟩,
        ⟨some "t3", some "c3"⟩, ⟨some "t4", some "c4"⟩,
        ⟨some "t5", some "c5"⟩] : List SearchResult),
      (strTake (r.content.getD "No content") 300).length ≤ 300 :=
  C4_first_three_truncated (some "tvly-key")
    [⟨some "t1", some "c1"⟩, ⟨some "t2", some "c2"⟩,
      ⟨some "t3", some "c3"⟩, ⟨some "t4", some "c4"⟩,
      ⟨some "t5", some "c5"⟩] "query" (by decide)

/-- C9: every failing load attempt (missing file, unreadable file, invalid
JSON — all surfacing as a caught exception) yields the empty database, and
with that database every query is answered through the web path. -/
theorem C9_load_failure_empty_db (e : String)
    (score : String → String → Nat) (key : Option String)
    (provider : ProviderBehavior) (query : String) :
    _load_qa_database (Except.error e) = ⟨[]⟩ ∧
    get_answer score (_load_qa_database (Except.error e)) key provider
        query = ⟨"web", search_web key provider query⟩ := by
  refine ⟨rfl, ?_⟩
  apply get_answer_eq_web
  left
  have hdbq : (_load_qa_database (Except.error e)).questions = [] := rfl
  unfold find_best_match_in_database
  rw [hdbq]
  cases hqe : query.isEmpty <;> rfl

section PollLemmas

/-- The loop body keeps polling exactly on a non-terminal status. -/
theorem pollOutcome_eq_none_iff (r : PollResponse) :
    pollOutcome r = none ↔ ¬ isTerminal r := by
  unfold pollOutcome isTerminal
  by_cases h1 : r.status = "completed"
  · simp [h1]
  · by_cases h2 : r.status = "error"
    · simp [h1, h2]
    · simp [h1, h2]

/-- The loop body exits with the transcript text on `"completed"` and with
`None` on `"error"`. -/
theorem pollOutcome_eq_some {r : PollResponse} {res : Option String}
    (h : pollOutcome r = some res) :
    (r.status = "completed" ∧ res = some r.text) ∨
    (r.status = "error" ∧ res = none) := by
  unfold pollOutcome at h
  by_cases h1 : r.status = "completed"
  · rw [if_pos h1] at h
    exact Or.inl ⟨h1, (Option.some.injEq _ _ ▸ h).symm⟩
  · rw [if_neg h1] at h
    by_cases h2 : r.status = "error"
    · rw [if_pos h2] at h
      exact Or.inr ⟨h2, (Option.some.injEq _ _ ▸ h).symm⟩
    · rw [if_neg h2] at h
      exact absurd h (Option.some_ne_none _).symm

end PollLemmas

/-- C7: whenever the polling loop exits within any poll budget, the exit
happens at the first terminal response — `"completed"` returning the text
or `"error"` returning `None` — and every earlier response was
non-terminal; when no response in the stream is ever terminal, the loop is
still running after every number of polls (no attempt limit or timeout). -/
theorem C7_poll_terminal_only (responses : Nat → PollResponse) :
    (∀ i fuel res, transcribe_poll responses i fuel = some res →
      ∃ k, i ≤ k ∧ k < i + fuel ∧ isTerminal (responses k) ∧
        (∀ j, i ≤ j → j < k → ¬ isTerminal (responses j)) ∧
        (((responses k).status = "completed" ∧
            res = some (responses k).text) ∨
          ((responses k).status = "error" ∧ res = none))) ∧
    ((∀ k, ¬ isTerminal (responses k)) →
      ∀ i fuel, transcribe_poll responses i fuel = none) := by
  constructor
  · intro i fuel
    induction fuel generalizing i with
    | zero =>
      intro res h
      exact absurd h (by simp [transcribe_poll])
    | succ n ih =>
      intro res h
      unfold transcribe_poll at h
      cases hp : pollOutcome (responses i) with
      | some out =>
        rw [hp] at h
        have hres : out = res := Option.some.inj h
        subst hres
        have hterm : isTerminal (responses i) := by
          rcases pollOutcome_eq_some hp with ⟨hc, _⟩ | ⟨hc, _⟩

          · exact Or.inl hc
          · exact Or.inr hc
        refine ⟨i, Nat.le_refl i, by omega, hterm, ?_, ?_⟩
        · intro j hij hji
          omega
        · exact pollOutcome_eq_some hp
      | none =>
        rw [hp] at h
        obtain ⟨k, hik, hkf, hterm, hbefore, hres⟩ := ih (i + 1) res h
        refine ⟨k, by omega, by omega, hterm, ?_, hres⟩
        intro j hij hjk
        rcases Nat.eq_or_lt_of_le hij with rfl | hlt
        · exact (pollOutcome_eq_none_iff _).mp hp
        · exact hbefore j hlt hjk
  · intro hall i fuel
    induction fuel generalizing i with
    | zero => rfl
    | succ n ih =>
      unfold transcribe_poll
      rw [(pollOutcome_eq_none_iff _).mpr (hall i)]
      exact ih (i + 1)

/-- Witness for C7: the loop on `demoResponses` exits within five polls at
the first terminal response (the completed one at index 2) with its text,
and on the never-terminal stream `demoForever` it is still running after
1000 polls. -/
theorem C7_poll_terminal_only_witness :
    (∃ k, 0 ≤ k ∧ k < 0 + 5 ∧ isTerminal (demoResponses k) ∧
      (∀ j, 0 ≤ j → j < k → ¬ isTerminal (demoResponses j)) ∧
      (((demoResponses k).status = "completed" ∧
          (some "hello world" : Option String)
            = some (demoResponses k).text) ∨
        ((demoResponses k).status = "error" ∧
          (some "hello world" : Option String) = none))) ∧
    transcribe_poll demoForever 0 1000 = none :=
  ⟨(C7_poll_terminal_only demoResponses).1 0 5 (some "hello world")
      (by decide),
    (C7_poll_terminal_only demoForever).2
      (fun k => by
        intro hc
        rcases hc with h | h
        · exact absurd h (by decide : ¬("queued" : String) = "completed")
        · exact absurd h (by decide : ¬("queued" : String) = "error"))
      0 1000⟩

end VoiceQA
